import Mathlib

/-
Shallow embedding of `src/satnogs_sstv_requester.py`.

The script queries the SATNOGS API for SSTV observations, downloads each
demodulated payload image, scores it with a Laplacian-variance heuristic and
deletes images it classifies as static noise.

External effects are modelled explicitly:
- the filesystem is a pure `FS` value (directories plus path-to-bytes files);
- the HTTP transport (`requests.get`), the image codec (`cv2.imread`), the
  Laplacian-variance computation (`cv2.Laplacian(...).var()`) and the JSON
  parser (`response.json()`) are oracle fields of an `Env` record, since the
  libraries behind them are not part of this repository;
- console prints that carry control-flow-relevant information are recorded as
  `Event`s so that counting claims can be stated.
-/

/-- A grayscale image: a 2D grid of pixel intensities, the carrier on which
the variance oracle operates. -/
abbrev Img := List (List Int)

/-- An HTTP response: status code and body bytes. -/
structure HttpResponse where
  status : Nat
  content : List Nat
deriving Repr, DecidableEq

/-- One demodulated-data entry of an observation; `payload_demod` is the URL
of the decoded image (line 78). -/
structure DemodPayload where
  payload_demod : String
deriving Repr, DecidableEq

/-- One observation record of the API response.  `demoddata` is `none` when
the JSON object lacks the field entirely, mirroring `obs.get("demoddata", [])`
on line 75. -/
structure Observation where
  id : Nat
  demoddata : Option (List DemodPayload)
deriving Repr, DecidableEq

/-- Line 75: `obs.get("demoddata", [])` — a missing field reads as `[]`. -/
def Observation.decoded_data (obs : Observation) : List DemodPayload :=
  obs.demoddata.getD []

/-- Oracles for the external libraries used by the script. -/
structure Env where
  http : String → HttpResponse
  decode : List Nat → Option Img
  variance : Img → ℚ
  parse_json : List Nat → List Observation

/-- The filesystem: existing directories and an association of file paths to
byte contents. -/
structure FS where
  dirs : List String
  files : List (String × List Nat)
deriving Repr, DecidableEq

/-- A file exists when some entry carries its path. -/
def FS.fileExists (fs : FS) (p : String) : Bool :=
  fs.files.any (fun e => e.1 == p)

/-- Reading a file returns the bytes of the entry at the path, if any. -/
def FS.readFile (fs : FS) (p : String) : Option (List Nat) :=
  (fs.files.find? (fun e => e.1 == p)).map (fun e => e.2)

/-- `open(path, "wb")` followed by `write`: replaces whatever was at the path. -/
def FS.writeFile (fs : FS) (p : String) (b : List Nat) : FS :=
  { fs with files := (p, b) :: fs.files.filter (fun e => !(e.1 == p)) }

/-- `os.remove(path)`: drops the entry at the path. -/
def FS.removeFile (fs : FS) (p : String) : FS :=
  { fs with files := fs.files.filter (fun e => !(e.1 == p)) }

/-- `os.makedirs(d, exist_ok=True)`: ensures the directory exists. -/
def FS.makedirs (fs : FS) (d : String) : FS :=
  if fs.dirs.contains d then fs else { fs with dirs := d :: fs.dirs }

/-- Directory existence. -/
def FS.dirExists (fs : FS) (d : String) : Bool :=
  fs.dirs.contains d

/-- Console lines that matter to the claims, recorded as events. -/
inductive Event where
  | fetch_failed (status : Nat)
  | download_ok (path : String)
  | download_failed (url : String) (status : Nat)
  | classified (path : String) (static : Bool)
  | removed (path : String)
deriving Repr, DecidableEq

/-- The fixed working subdirectory, the default of `save_dir` on line 14. -/
def SAVE_DIR : String := "satnogs_images"

/-- The default classification threshold of `is_static_image` on line 32. -/
def DEFAULT_THRESHOLD : ℚ := 20000

/-- Python's `s.split("/")` on the character list of a string: single-character
separator semantics, so `[]` maps to `[[]]` and separators at the ends yield
empty segments. -/
def splitOnSlash : List Char → List (List Char)
  | [] => [[]]
  | c :: rest =>
      let r := splitOnSlash rest
      if c = '/' then [] :: r
      else
        match r with
        | [] => [[c]]
        | s :: ss => (c :: s) :: ss

/-- Line 18: `image_url.split("/")[-1]`, the final path segment of the URL. -/
def image_name_of (url : String) : String :=
  String.mk ((splitOnSlash url.data).getLastD [])

/-- Line 19: `os.path.join(save_dir, image_name)`. -/
def path_join (d n : String) : String :=
  d ++ "/" ++ n

/-- Lines 14-29: `download_image`.  Ensures the directory exists, issues the
GET, and on status 200 writes the body to `save_dir/<final URL segment>` and
returns that path; otherwise returns nothing. -/
def download_image (env : Env) (fs : FS) (image_url : String) (save_dir : String) :
    FS × Option String :=
  let fs1 := fs.makedirs save_dir
  let save_path := path_join save_dir (image_name_of image_url)
  let response := env.http image_url
  if response.status = 200 then
    (fs1.writeFile save_path response.content, some save_path)
  else
    (fs1, none)

/-- Line 34: `cv2.imread(image_path, cv2.IMREAD_GRAYSCALE)` — reads the bytes
at the path and decodes them; `none` when the file is missing or its bytes do
not decode as an image. -/
def imread_grayscale (env : Env) (fs : FS) (image_path : String) : Option Img :=
  (fs.readFile image_path).bind env.decode

/-- Lines 32-44: `is_static_image`.  Returns `true` when the image cannot be
loaded; otherwise returns `laplacian_var > threshold` (line 44). -/
def is_static_image (env : Env) (fs : FS) (image_path : String) (threshold : ℚ) :
    Bool :=
  match imread_grayscale env fs image_path with
  | none => true
  | some img => decide (threshold < env.variance img)

/-- Lines 78-86: the body of the inner loop of `get_sstv_images` for one
payload: download, and when a path came back, classify and on `True` delete. -/
def process_payload (env : Env) (fs : FS) (image_url : String) : FS × List Event :=
  match download_image env fs image_url SAVE_DIR with
  | (fs1, some image_path) =>
      if is_static_image env fs1 image_path DEFAULT_THRESHOLD then
        (fs1.removeFile image_path,
         [Event.download_ok image_path, Event.classified image_path true,
          Event.removed image_path])
      else
        (fs1, [Event.download_ok image_path, Event.classified image_path false])
  | (fs1, none) =>
      (fs1, [Event.download_failed image_url (env.http image_url).status])

/-- Lines 76-86: the inner `for data in decoded_data` loop, in order. -/
def process_payload_list (env : Env) (fs : FS) : List DemodPayload → FS × List Event
  | [] => (fs, [])
  | d :: rest =>
      let r := process_payload env fs d.payload_demod
      let r2 := process_payload_list env r.1 rest
      (r2.1, r.2 ++ r2.2)

/-- Lines 71-86: processing of one observation — iterate its decoded data. -/
def process_observation (env : Env) (fs : FS) (obs : Observation) : FS × List Event :=
  process_payload_list env fs obs.decoded_data

/-- Lines 71-86: the outer `for obs in observations` loop. -/
def process_observations (env : Env) (fs : FS) : List Observation → FS × List Event
  | [] => (fs, [])
  | obs :: rest =>
      let r := process_observation env fs obs
      let r2 := process_observations env r.1 rest
      (r2.1, r.2 ++ r2.2)

/-- Lines 47-86: `get_sstv_images`.  `query_url` stands for the API URL with
the serialized query parameters of lines 49-61.  On a non-200 status the run
stops with only the failure message (lines 65-67); otherwise the parsed
observations are processed. -/
def get_sstv_images (env : Env) (fs : FS) (query_url : String) : FS × List Event :=
  let response := env.http query_url
  if response.status ≠ 200 then
    (fs, [Event.fetch_failed response.status])
  else
    process_observations env fs (env.parse_json response.content)

/-- Recognizer for classification events. -/
def isClassifiedEv : Event → Bool
  | Event.classified _ _ => true
  | _ => false

/-- Recognizer for classification events whose verdict was static. -/
def isStaticClassifiedEv : Event → Bool
  | Event.classified _ b => b
  | _ => false

/-- Recognizer for successful-download events. -/
def isDownloadOkEv : Event → Bool
  | Event.download_ok _ => true
  | _ => false

/-- Recognizer for failed-download events. -/
def isDownloadFailedEv : Event → Bool
  | Event.download_failed _ _ => true
  | _ => false

/-- Recognizer for deletion events. -/
def isRemovedEv : Event → Bool
  | Event.removed _ => true
  | _ => false

/-- Number of classifications in an event trace. -/
def countClassified (l : List Event) : Nat := l.countP isClassifiedEv

/-- Number of static verdicts in an event trace. -/
def countStaticClassified (l : List Event) : Nat := l.countP isStaticClassifiedEv

/-- Number of successful downloads in an event trace. -/
def countDownloadOk (l : List Event) : Nat := l.countP isDownloadOkEv

/-- Number of failed downloads in an event trace. -/
def countDownloadFailed (l : List Event) : Nat := l.countP isDownloadFailedEv

/-- Number of deletions in an event trace. -/
def countRemoved (l : List Event) : Nat := l.countP isRemovedEv

/-- Writing a path makes the file exist. -/
theorem FS.fileExists_writeFile_self (fs : FS) (p : String) (b : List Nat) :
    (fs.writeFile p b).fileExists p = true := by
  simp [FS.writeFile, FS.fileExists]

/-- Removing a path makes the file not exist. -/
theorem FS.fileExists_removeFile_self (fs : FS) (p : String) :
    (fs.removeFile p).fileExists p = false := by
  simp only [FS.removeFile, FS.fileExists]
  rw [List.any_eq_false]
  intro e he
  have := (List.mem_filter.mp he).2
  simpa using this

/-- Reading back a freshly written path yields the written bytes. -/
theorem FS.readFile_writeFile_self (fs : FS) (p : String) (b : List Nat) :
    (fs.writeFile p b).readFile p = some b := by
  simp [FS.writeFile, FS.readFile, List.find?_cons]

/-- `makedirs` establishes the directory. -/
theorem FS.dirExists_makedirs_self (fs : FS) (d : String) :
    (fs.makedirs d).dirExists d = true := by
  unfold FS.makedirs FS.dirExists
  split
  · assumption
  · simp

/-- `makedirs` leaves the files untouched. -/
theorem FS.files_makedirs (fs : FS) (d : String) :
    (fs.makedirs d).files = fs.files := by
  unfold FS.makedirs
  split <;> rfl

/-- `writeFile` leaves the directories untouched. -/
theorem FS.dirs_writeFile (fs : FS) (p : String) (b : List Nat) :
    (fs.writeFile p b).dirs = fs.dirs := rfl

/-- Shape of `process_payload` when the GET fails: the directory is still
created, nothing else changes, and the only event is the failure report. -/
theorem process_payload_fail (env : Env) (fs : FS) (url : String)
    (h : ¬ (env.http url).status = 200) :
    process_payload env fs url =
      (fs.makedirs SAVE_DIR,
       [Event.download_failed url (env.http url).status]) := by
  simp [process_payload, download_image, h]

/-- Shape of `process_payload` when the GET succeeds: the body is written,
the saved file is classified once, and on a static verdict it is removed. -/
theorem process_payload_success (env : Env) (fs : FS) (url : String)
    (h : (env.http url).status = 200) :
    process_payload env fs url =
      if is_static_image env
          ((fs.makedirs SAVE_DIR).writeFile
            (path_join SAVE_DIR (image_name_of url)) (env.http url).content)
          (path_join SAVE_DIR (image_name_of url)) DEFAULT_THRESHOLD
      then
        (((fs.makedirs SAVE_DIR).writeFile
            (path_join SAVE_DIR (image_name_of url)) (env.http url).content).removeFile
              (path_join SAVE_DIR (image_name_of url)),
         [Event.download_ok (path_join SAVE_DIR (image_name_of url)),
          Event.classified (path_join SAVE_DIR (image_name_of url)) true,
          Event.removed (path_join SAVE_DIR (image_name_of url))])
      else
        ((fs.makedirs SAVE_DIR).writeFile
            (path_join SAVE_DIR (image_name_of url)) (env.http url).content,
         [Event.download_ok (path_join SAVE_DIR (image_name_of url)),
          Event.classified (path_join SAVE_DIR (image_name_of url)) false]) := by
  simp [process_payload, download_image, h]

/-- On a successful download, the payload step classifies exactly once,
reports no download failure, and records exactly one successful download. -/
theorem payload_ok_counts (env : Env) (fs : FS) (url : String)
    (h : (env.http url).status = 200) :
    countClassified (process_payload env fs url).2 = 1 ∧
    countDownloadFailed (process_payload env fs url).2 = 0 ∧
    countDownloadOk (process_payload env fs url).2 = 1 := by
  rw [process_payload_success env fs url h]
  split <;> exact ⟨rfl, rfl, rfl⟩

/-- On a failed download, the payload step classifies nothing, removes
nothing, downloads nothing and reports exactly one failure. -/
theorem payload_fail_counts (env : Env) (fs : FS) (url : String)
    (h : ¬ (env.http url).status = 200) :
    countClassified (process_payload env fs url).2 = 0 ∧
    countDownloadFailed (process_payload env fs url).2 = 1 ∧
    countDownloadOk (process_payload env fs url).2 = 0 ∧
    countRemoved (process_payload env fs url).2 = 0 := by
  rw [process_payload_fail env fs url h]
  exact ⟨rfl, rfl, rfl, rfl⟩

/-- For every single payload step, classifications equal successful
downloads and removals equal static verdicts. -/
theorem payload_curation_counts (env : Env) (fs : FS) (url : String) :
    countClassified (process_payload env fs url).2 =
      countDownloadOk (process_payload env fs url).2 ∧
    countRemoved (process_payload env fs url).2 =
      countStaticClassified (process_payload env fs url).2 := by
  by_cases h : (env.http url).status = 200
  · rw [process_payload_success env fs url h]
    split <;> exact ⟨rfl, rfl⟩
  · rw [process_payload_fail env fs url h]
    exact ⟨rfl, rfl⟩

/-- Unfolding equation of the inner loop on a nonempty payload list. -/
theorem process_payload_list_cons (env : Env) (fs : FS) (d : DemodPayload)
    (rest : List DemodPayload) :
    process_payload_list env fs (d :: rest) =
      ((process_payload_list env (process_payload env fs d.payload_demod).1 rest).1,
       (process_payload env fs d.payload_demod).2 ++
         (process_payload_list env (process_payload env fs d.payload_demod).1 rest).2) :=
  rfl

/-- Per payload list, classifications equal successful downloads and
removals equal static verdicts. -/
theorem payload_list_curation_counts (env : Env) (ps : List DemodPayload) :
    ∀ fs : FS,
      countClassified (process_payload_list env fs ps).2 =
        countDownloadOk (process_payload_list env fs ps).2 ∧
      countRemoved (process_payload_list env fs ps).2 =
        countStaticClassified (process_payload_list env fs ps).2 := by
  induction ps with
  | nil => intro fs; exact ⟨rfl, rfl⟩
  | cons d rest ih =>
      intro fs
      have h1 := payload_curation_counts env fs d.payload_demod
      have h2 := ih (process_payload env fs d.payload_demod).1
      rw [process_payload_list_cons]
      simp only [countClassified, countDownloadOk, countRemoved,
        countStaticClassified, List.countP_append] at *
      omega

/-- Per observation list, classifications equal successful downloads and
removals equal static verdicts. -/
theorem observations_curation_counts (env : Env) (obss : List Observation) :
    ∀ fs : FS,
      countClassified (process_observations env fs obss).2 =
        countDownloadOk (process_observations env fs obss).2 ∧
      countRemoved (process_observations env fs obss).2 =
        countStaticClassified (process_observations env fs obss).2 := by
  induction obss with
  | nil => intro fs; exact ⟨rfl, rfl⟩
  | cons obs rest ih =>
      intro fs
      have h1 := payload_list_curation_counts env obs.decoded_data fs
      have h2 := ih (process_observation env fs obs).1
      simp only [process_observations, process_observation, countClassified,
        countDownloadOk, countRemoved, countStaticClassified,
        List.countP_append] at *
      omega

/-- Shape of `get_sstv_images` on a failed observation fetch. -/
theorem gsi_fail (env : Env) (fs : FS) (q : String)
    (h : ¬ (env.http q).status = 200) :
    get_sstv_images env fs q = (fs, [Event.fetch_failed (env.http q).status]) := by
  simp [get_sstv_images, h]

/-- Shape of `get_sstv_images` on a successful observation fetch. -/
theorem gsi_ok (env : Env) (fs : FS) (q : String)
    (h : (env.http q).status = 200) :
    get_sstv_images env fs q =
      process_observations env fs (env.parse_json (env.http q).content) := by
  simp [get_sstv_images, h]

/-- The empty filesystem. -/
def fs0 : FS := ⟨[], []⟩

/-- A one-pixel decoded image used by the concrete environments. -/
def imgB : Img := [[0]]

/-- A filesystem already holding the working directory and one saved image. -/
def fsB : FS := ⟨[SAVE_DIR], [(path_join SAVE_DIR "a.png", [7])]⟩

/-- Environment whose codec always succeeds and whose variance oracle gives
exactly the default threshold, 20000. -/
def envBoundary : Env :=
  { http := fun _ => ⟨200, [7]⟩
  , decode := fun _ => some imgB
  , variance := fun _ => 20000
  , parse_json := fun _ => [] }

/-- Same as `envBoundary` but with variance one unit above the threshold. -/
def envAbove : Env :=
  { envBoundary with variance := fun _ => 20001 }

/-- Claim C1: the spec says the classification is STATIC exactly when the
Laplacian variance is at most the threshold (boundary inclusive of STATIC)
and CONTENT strictly above it.  The code returns `laplacian_var > threshold`
from `is_static_image` and the caller treats `True` as static, so the
polarity is inverted: at variance exactly 20000 the code classifies CONTENT
(`is_static_image` is `false`), at 20001 it classifies STATIC and even
deletes the saved file.  This contradicts the code's own comment on line 44
("If the variance is below the threshold, we consider the image static"). -/
theorem C1_threshold_polarity :
    is_static_image envBoundary fsB (path_join SAVE_DIR "a.png") 20000 = false ∧
    is_static_image envAbove fsB (path_join SAVE_DIR "a.png") 20000 = true ∧
    (process_payload envAbove fsB "http://x/a.png").1.fileExists
      (path_join SAVE_DIR "a.png") = false := by
  refine ⟨?_, ?_, ?_⟩ <;> decide

/-- Claim C2: after a successful download, the payload step leaves the file
in place exactly when the classification was CONTENT (`is_static_image` is
`false`) and deletes it when the classification was STATIC. -/
theorem C2_static_deleted_content_kept (env : Env) (fs : FS) (url : String)
    (h : (env.http url).status = 200) :
    (process_payload env fs url).1.fileExists (path_join SAVE_DIR (image_name_of url)) =
      !(is_static_image env
          ((fs.makedirs SAVE_DIR).writeFile (path_join SAVE_DIR (image_name_of url))
            (env.http url).content)
          (path_join SAVE_DIR (image_name_of url)) DEFAULT_THRESHOLD) := by
  rw [process_payload_success env fs url h]
  by_cases hs : is_static_image env
      ((fs.makedirs SAVE_DIR).writeFile (path_join SAVE_DIR (image_name_of url))
        (env.http url).content)
      (path_join SAVE_DIR (image_name_of url)) DEFAULT_THRESHOLD
  · simp [hs, FS.fileExists_removeFile_self]
  · simp [hs, FS.fileExists_writeFile_self]

/-- Environment whose variance oracle yields 0, below the threshold. -/
def envContent : Env :=
  { http := fun _ => ⟨200, [7]⟩
  , decode := fun _ => some imgB
  , variance := fun _ => 0
  , parse_json := fun _ => [] }

/-- Concrete instance of claim C2 at url "u" in the empty filesystem. -/
theorem C2_static_deleted_content_kept_witness :
    (process_payload envContent fs0 "u").1.fileExists
        (path_join SAVE_DIR (image_name_of "u")) =
      !(is_static_image envContent
          ((fs0.makedirs SAVE_DIR).writeFile (path_join SAVE_DIR (image_name_of "u"))
            ((envContent.http "u").content))
          (path_join SAVE_DIR (image_name_of "u")) DEFAULT_THRESHOLD) :=
  C2_static_deleted_content_kept envContent fs0 "u" rfl

/-- Claim C3: when the saved bytes cannot be loaded as an image,
`is_static_image` answers `true` (STATIC) for every threshold, including
zero and negative thresholds. -/
theorem C3_decode_failure_static (env : Env) (fs : FS) (p : String)
    (h : imread_grayscale env fs p = none) (threshold : ℚ) :
    is_static_image env fs p threshold = true := by
  unfold is_static_image
  rw [h]

/-- Environment whose codec always fails to decode. -/
def envNoDecode : Env :=
  { http := fun _ => ⟨200, [7]⟩
  , decode := fun _ => none
  , variance := fun _ => 0
  , parse_json := fun _ => [] }

/-- A filesystem holding a file whose bytes will not decode. -/
def fsND : FS := ⟨[SAVE_DIR], [("a.png", [7])]⟩

/-- Concrete instance of claim C3 at thresholds 0, -5 and 20000. -/
theorem C3_decode_failure_static_witness :
    is_static_image envNoDecode fsND "a.png" 0 = true ∧
    is_static_image envNoDecode fsND "a.png" (-5) = true ∧
    is_static_image envNoDecode fsND "a.png" 20000 = true :=
  ⟨C3_decode_failure_static envNoDecode fsND "a.png" rfl 0,
   C3_decode_failure_static envNoDecode fsND "a.png" rfl (-5),
   C3_decode_failure_static envNoDecode fsND "a.png" rfl 20000⟩

/-- Claim C4: over a whole run, every successfully downloaded image receives
exactly one classification (classification events equal successful-download
events) and every classification is disposed exactly once (deletions equal
static verdicts; content verdicts retain the file). -/
theorem C4_classified_exactly_once (env : Env) (fs : FS) (q : String) :
    countClassified (get_sstv_images env fs q).2 =
      countDownloadOk (get_sstv_images env fs q).2 ∧
    countRemoved (get_sstv_images env fs q).2 =
      countStaticClassified (get_sstv_images env fs q).2 := by
  by_cases h : (env.http q).status = 200
  · rw [gsi_ok env fs q h]
    exact observations_curation_counts env (env.parse_json (env.http q).content) fs
  · rw [gsi_fail env fs q h]
    exact ⟨rfl, rfl⟩

/-- Claim C5: in a three-payload observation whose middle download fails,
the failing payload gets no classification and no deletion, the failure is
reported, and processing reaches the third payload: exactly two
classifications and one reported download failure occur. -/
theorem C5_download_failure_skips_payload (env : Env) (fs : FS) (u1 u2 u3 : String)
    (h1 : (env.http u1).status = 200) (h2 : ¬ (env.http u2).status = 200)
    (h3 : (env.http u3).status = 200) :
    countClassified (process_observation env fs ⟨1, some [⟨u1⟩, ⟨u2⟩, ⟨u3⟩]⟩).2 = 2 ∧
    countRemoved (process_payload env (process_payload env fs u1).1 u2).2 = 0 ∧
    countDownloadFailed (process_observation env fs ⟨1, some [⟨u1⟩, ⟨u2⟩, ⟨u3⟩]⟩).2 = 1 ∧
    Event.download_failed u2 (env.http u2).status ∈
      (process_observation env fs ⟨1, some [⟨u1⟩, ⟨u2⟩, ⟨u3⟩]⟩).2 := by
  have hobs : (process_observation env fs ⟨1, some [⟨u1⟩, ⟨u2⟩, ⟨u3⟩]⟩).2 =
      (process_payload env fs u1).2 ++
      ((process_payload env (process_payload env fs u1).1 u2).2 ++
       ((process_payload env
          (process_payload env (process_payload env fs u1).1 u2).1 u3).2 ++ [])) := rfl
  obtain ⟨a1, a2, a3⟩ := payload_ok_counts env fs u1 h1
  obtain ⟨b1, b2, b3, b4⟩ :=
    payload_fail_counts env (process_payload env fs u1).1 u2 h2
  obtain ⟨c1, c2, c3⟩ := payload_ok_counts env
    (process_payload env (process_payload env fs u1).1 u2).1 u3 h3
  refine ⟨?_, b4, ?_, ?_⟩
  · rw [hobs]
    simp only [countClassified, List.countP_append, List.countP_nil] at *
    omega
  · rw [hobs]
    simp only [countDownloadFailed, List.countP_append, List.countP_nil] at *
    omega
  · rw [hobs, process_payload_fail env (process_payload env fs u1).1 u2 h2]
    simp [List.mem_append]

/-- Environment in which only the URL "b" fails to download. -/
def env5 : Env :=
  { http := fun u => if u == "b" then ⟨404, []⟩ else ⟨200, [7]⟩
  , decode := fun _ => some imgB
  , variance := fun _ => 0
  , parse_json := fun _ => [] }

/-- Concrete instance of claim C5: payloads "a", "b", "c" where "b" answers
HTTP 404. -/
theorem C5_download_failure_skips_payload_witness :
    countClassified (process_observation env5 fs0 ⟨1, some [⟨"a"⟩, ⟨"b"⟩, ⟨"c"⟩]⟩).2 = 2 ∧
    countRemoved (process_payload env5 (process_payload env5 fs0 "a").1 "b").2 = 0 ∧
    countDownloadFailed (process_observation env5 fs0 ⟨1, some [⟨"a"⟩, ⟨"b"⟩, ⟨"c"⟩]⟩).2 = 1 ∧
    Event.download_failed "b" (env5.http "b").status ∈
      (process_observation env5 fs0 ⟨1, some [⟨"a"⟩, ⟨"b"⟩, ⟨"c"⟩]⟩).2 :=
  C5_download_failure_skips_payload env5 fs0 "a" "b" "c"
    (by decide) (by decide) (by decide)

/-- Claim C6: a non-200 observation-list fetch aborts the run: the
filesystem is untouched, the only event is the reported fetch failure, and
in particular no download and no classification happens. -/
theorem C6_fetch_failure_aborts_run (env : Env) (fs : FS) (q : String)
    (h : ¬ (env.http q).status = 200) :
    get_sstv_images env fs q = (fs, [Event.fetch_failed (env.http q).status]) ∧
    countDownloadOk (get_sstv_images env fs q).2 = 0 ∧
    countClassified (get_sstv_images env fs q).2 = 0 := by
  have e := gsi_fail env fs q h
  refine ⟨e, ?_, ?_⟩ <;> rw [e] <;> exact rfl

/-- Environment whose every request answers HTTP 500. -/
def env500 : Env :=
  { http := fun _ => ⟨500, []⟩
  , decode := fun _ => some imgB
  , variance := fun _ => 0
  , parse_json := fun _ => [] }

/-- Concrete instance of claim C6 at a 500 response. -/
theorem C6_fetch_failure_aborts_run_witness :
    get_sstv_images env500 fs0 "q" = (fs0, [Event.fetch_failed (env500.http "q").status]) ∧
    countDownloadOk (get_sstv_images env500 fs0 "q").2 = 0 ∧
    countClassified (get_sstv_images env500 fs0 "q").2 = 0 :=
  C6_fetch_failure_aborts_run env500 fs0 "q" (by decide)

/-- Claim C7: an observation whose demoddata sequence is empty produces no
downloads, no classifications and no filesystem change. -/
theorem C7_empty_demoddata_no_work (env : Env) (fs : FS) (obs : Observation)
    (h : obs.demoddata = some []) :
    process_observation env fs obs = (fs, []) := by
  simp [process_observation, Observation.decoded_data, h, process_payload_list]

/-- A plain environment for the empty-observation instances. -/
def env0 : Env :=
  { http := fun _ => ⟨200, []⟩
  , decode := fun _ => none
  , variance := fun _ => 0
  , parse_json := fun _ => [] }

/-- Concrete instance of claim C7. -/
theorem C7_empty_demoddata_no_work_witness :
    process_observation env0 fs0 ⟨5, some []⟩ = (fs0, []) :=
  C7_empty_demoddata_no_work env0 fs0 ⟨5, some []⟩ rfl

/-- Claim C8: a successful download saves the body under
`SAVE_DIR/<final URL segment>` and returns that path; a second download
whose URL has the same final segment lands on the same path and silently
replaces the first body with its own. -/
theorem C8_segment_naming_overwrite (env : Env) (fs : FS) (u1 u2 : String)
    (h1 : (env.http u1).status = 200) (h2 : (env.http u2).status = 200)
    (hn : image_name_of u2 = image_name_of u1) :
    (download_image env fs u1 SAVE_DIR).2 =
      some (path_join SAVE_DIR (image_name_of u1)) ∧
    (download_image env fs u1 SAVE_DIR).1.readFile
        (path_join SAVE_DIR (image_name_of u1)) = some (env.http u1).content ∧
    (download_image env (download_image env fs u1 SAVE_DIR).1 u2 SAVE_DIR).2 =
      some (path_join SAVE_DIR (image_name_of u1)) ∧
    (download_image env (download_image env fs u1 SAVE_DIR).1 u2 SAVE_DIR).1.readFile
        (path_join SAVE_DIR (image_name_of u1)) = some (env.http u2).content := by
  simp only [download_image]
  rw [if_pos h1, if_pos h2, hn]
  exact ⟨rfl, FS.readFile_writeFile_self _ _ _, rfl, FS.readFile_writeFile_self _ _ _⟩

/-- Environment distinguishing the bodies of the two colliding URLs. -/
def env8 : Env :=
  { http := fun u => if u == "x/a" then ⟨200, [1]⟩ else ⟨200, [2]⟩
  , decode := fun _ => some imgB
  , variance := fun _ => 0
  , parse_json := fun _ => [] }

/-- Concrete instance of claim C8: "x/a" and "y/a" share the segment "a". -/
theorem C8_segment_naming_overwrite_witness :
    (download_image env8 fs0 "x/a" SAVE_DIR).2 =
      some (path_join SAVE_DIR (image_name_of "x/a")) ∧
    (download_image env8 fs0 "x/a" SAVE_DIR).1.readFile
        (path_join SAVE_DIR (image_name_of "x/a")) = some (env8.http "x/a").content ∧
    (download_image env8 (download_image env8 fs0 "x/a" SAVE_DIR).1 "y/a" SAVE_DIR).2 =
      some (path_join SAVE_DIR (image_name_of "x/a")) ∧
    (download_image env8 (download_image env8 fs0 "x/a" SAVE_DIR).1 "y/a" SAVE_DIR).1.readFile
        (path_join SAVE_DIR (image_name_of "x/a")) = some (env8.http "y/a").content :=
  C8_segment_naming_overwrite env8 fs0 "x/a" "y/a" (by decide) (by decide) (by decide)

/-- Claim C9: an observation record lacking the demoddata field entirely is
treated as an empty payload sequence: no downloads, no classifications. -/
theorem C9_missing_demoddata_no_work (env : Env) (fs : FS) (obs : Observation)
    (h : obs.demoddata = none) :
    process_observation env fs obs = (fs, []) := by
  simp [process_observation, Observation.decoded_data, h, process_payload_list]

/-- Concrete instance of claim C9. -/
theorem C9_missing_demoddata_no_work_witness :
    process_observation env0 fs0 ⟨6, none⟩ = (fs0, []) :=
  C9_missing_demoddata_no_work env0 fs0 ⟨6, none⟩ rfl

/-- Claim C10: `download_image` creates the working directory
unconditionally, so the directory exists after every call; and when the GET
answers a non-200 status it writes no file and returns no saved path. -/
theorem C10_workdir_and_failure_frame (env : Env) (fs : FS) (url : String) :
    (download_image env fs url SAVE_DIR).1.dirExists SAVE_DIR = true ∧
    (¬ (env.http url).status = 200 →
      (download_image env fs url SAVE_DIR).2 = none ∧
      (download_image env fs url SAVE_DIR).1.files = fs.files) := by
  by_cases h : (env.http url).status = 200
  · simp only [download_image]
    rw [if_pos h]
    exact ⟨FS.dirExists_makedirs_self fs SAVE_DIR, fun hc => absurd h hc⟩
  · simp only [download_image]
    rw [if_neg h]
    exact ⟨FS.dirExists_makedirs_self fs SAVE_DIR,
           fun _ => ⟨rfl, FS.files_makedirs fs SAVE_DIR⟩⟩

/-- Environment whose every request answers HTTP 404. -/
def env404 : Env :=
  { http := fun _ => ⟨404, []⟩
  , decode := fun _ => some imgB
  , variance := fun _ => 0
  , parse_json := fun _ => [] }

/-- Concrete instance of claim C10 at a failing download. -/
theorem C10_workdir_and_failure_frame_witness :
    (download_image env404 fs0 "u" SAVE_DIR).1.dirExists SAVE_DIR = true ∧
    (download_image env404 fs0 "u" SAVE_DIR).2 = none ∧
    (download_image env404 fs0 "u" SAVE_DIR).1.files = fs0.files :=
  ⟨(C10_workdir_and_failure_frame env404 fs0 "u").1,
   (C10_workdir_and_failure_frame env404 fs0 "u").2 (by decide)⟩
